import Mathlib

/-!
Verification of the JobHunter scraping engine against its specification.

The definitions below are a shallow embedding of the Python sources:
  * `src/backend/scraper/bdjobs/__init__.py` — the BDJobs crawler
    (`is_bangladesh_location`, `parse_location`, `extract_job_id_from_url`,
    `BDJobs._process_job`, `BDJobs.scrape`);
  * `src/backend/modules/services.py` — `JobService.scrape_jobs_wrapper`
    (the remote-filter backfill loop and final truncation);
  * `src/modules/utils.py` — `process_jobs_dataframe` (result normalizer).

HTTP fetches and HTML parsing are abstracted by an environment: a crawler
run is parameterised by a function from page number to the outcome of that
page's fetch (transport error, status code, and the parsed job cards).
A job card is abstracted to the extraction results the Python code reads
off the HTML element (link href, link text, class-selector texts, ...).
-/

/-- Character-list test: does `text` begin with `pat`? (helper for the
substring test used by the Python `in` operator on strings). -/
def subAt : List Char → List Char → Bool
  | [], _ => true
  | _ :: _, [] => false
  | a :: as, b :: bs => a == b && subAt as bs

/-- Character-list test: does `text` contain `pat` as a contiguous run?
Embeds the Python expression `pat in text` for strings. -/
def hasSub (pat : List Char) : List Char → Bool
  | [] => subAt pat []
  | c :: cs => subAt pat (c :: cs) || hasSub pat cs

/-- String version of `hasSub`: the Python substring test `pat in s`. -/
def strContains (s pat : String) : Bool :=
  hasSub pat.data s.data

/-- Does `s` start with `pat`? (kernel-reducible replacement for
`String.startsWith`, embedding Python `str.startswith`). -/
def startsWithStr (s pat : String) : Bool :=
  subAt pat.data s.data

/-- Splitting a character list on a separator character (helper). -/
def splitCharAux (sep : Char) : List Char → List Char → List (List Char)
  | [], cur => [cur.reverse]
  | c :: cs, cur =>
    if c == sep then cur.reverse :: splitCharAux sep cs []
    else splitCharAux sep cs (c :: cur)

/-- Split a string on a single separator character (kernel-reducible
replacement for `String.splitOn` with a one-character separator, embedding
Python `str.split(sep)`). -/
def splitChar (sep : Char) (s : String) : List String :=
  (splitCharAux sep s.data []).map String.mk

/-- Join strings with a separator (kernel-reducible replacement for
`String.intercalate`). -/
def joinSep (sep : String) : List String → String
  | [] => ""
  | [x] => x
  | x :: xs => x ++ sep ++ joinSep sep xs

/-- Strip leading and trailing whitespace (kernel-reducible replacement for
`String.trim`, embedding Python `str.strip()`). -/
def trimStr (s : String) : String :=
  String.mk (((s.data.dropWhile Char.isWhitespace).reverse.dropWhile
    Char.isWhitespace).reverse)

/-- Embeds the module-level list `bangladesh_indicators` of
`is_bangladesh_location` in `src/backend/scraper/bdjobs/__init__.py`. -/
def bangladesh_indicators : List String :=
  ["bangladesh", "dhaka", "chittagong", "sylhet", "rajshahi", "khulna",
   "barisal", "rangpur", "mymensingh", "comilla", "narayanganj", "gazipur",
   "bd", "bengal"]

/-- Character-wise lower-casing, embedding the Python `str.lower()` call
(circumvents `String.toLower`, whose recursion does not kernel-reduce). -/
def lowerStr (s : String) : String :=
  String.mk (s.data.map Char.toLower)

/-- Embeds `is_bangladesh_location` (src/backend/scraper/bdjobs/__init__.py,
lines 47-59): an empty (falsy) location yields `True`; otherwise the
lower-cased location is tested for any Bangladesh indicator substring. -/
def is_bangladesh_location (location : String) : Bool :=
  if location = "" then true
  else bangladesh_indicators.any (fun ind => strContains (lowerStr location) ind)

/-- Modelled from the spec: the `Location` record of the scraper data model
(`scraper/model.py` is not part of the sources; spec section 3 defines
`Location` as city/state/country). `Country.from_string` is abstracted by
keeping the country string itself. -/
structure Location where
  city : Option String
  state : Option String
  country : String
deriving Repr, DecidableEq

/-- Embeds `parse_location` (src/backend/scraper/bdjobs/__init__.py, lines
62-74): empty text defaults to city Dhaka; text with a comma is split into
city and state; otherwise the whole trimmed text is the city. -/
def parse_location (location_text : String) (country : String) : Location :=
  if location_text = "" then
    { city := some "Dhaka", state := none, country := country }
  else
    let t := trimStr location_text
    match splitChar ',' t with
    | p0 :: p1 :: _ =>
        { city := some (trimStr p0), state := some (trimStr p1), country := country }
    | _ =>
        { city := some (trimStr t), state := none, country := country }

/-- Query component of a URL: the part after the first question mark and
before any fragment marker (abstraction of Python `urlparse(url).query`). -/
def queryOfUrl (url : String) : String :=
  match splitChar '?' url with
  | [] => ""
  | [_] => ""
  | _ :: rest => (splitChar '#' (joinSep "?" rest)).headD ""

/-- First value of the `id` query parameter, if present and non-empty
(abstraction of `parse_qs(query).get('id', [None])[0]`; URL-decoding is
not modelled, which is irrelevant to the proved properties). -/
def getIdParam (query : String) : Option String :=
  (splitChar '&' query).findSome? (fun p =>
    match splitChar '=' p with
    | "id" :: v :: rest =>
        let val := joinSep "=" (v :: rest)
        if val = "" then none else some val
    | _ => none)

/-- Stand-in for the platform string hash used by the Python fallback
`hash(url)`; its exact value is irrelevant to every property proved here. -/
def pyHash (s : String) : Int :=
  Int.ofNat (s.data.foldl (fun a c => (a * 31 + c.toNat) % 2 ^ 64) 7)

/-- Embeds `extract_job_id_from_url` (src/backend/scraper/bdjobs/__init__.py,
lines 77-87): take the `id` query parameter when present, otherwise fall
back to a hash of the URL; always prefixed with the site tag. -/
def extract_job_id_from_url (url : String) : String :=
  match getIdParam (queryOfUrl url) with
  | some v => "bdjobs-" ++ v
  | none => "bdjobs-" ++ toString (pyHash url)

/-- Simplified model of Python `urljoin(base, href)` for relative hrefs;
only reached when `href` does not start with "http". -/
def urljoin (base href : String) : String :=
  if startsWithStr href "/" then base ++ href else base ++ "/" ++ href

/-- Modelled from the spec: the `JobPost` record of the scraper data model
(`scraper/model.py` is not in the sources; spec section 3 lists its fields).
Fields not produced by the BDJobs crawler are omitted. -/
structure JobPost where
  id : String
  title : String
  company_name : String
  location : Location
  job_url : String
  description : Option String
  job_type : Option String
  date_posted : Option String
  is_remote : Bool
  site : String
deriving Repr, DecidableEq

/-- Abstraction of one HTML job-card element: the extraction results that
`BDJobs._process_job` reads from it. `detailLink` is the href of the first
anchor whose href contains "jobdetail", `anyLink` the href of the first
anchor at all; the `...Text` fields are the (already stripped) texts of the
elements found by the corresponding class-selector or regex heuristics,
`none` when the heuristic finds nothing. -/
structure Card where
  detailLink : Option String
  anyLink : Option String
  linkText : String
  headingText : Option String
  companyClassText : Option String
  companyPatternText : Option String
  locationClassText : Option String
  locationPatternText : Option String
  descText : Option String
  typeText : Option String
  dateText : Option String
deriving Repr, DecidableEq

/-- Embeds `BDJobs._process_job` (src/backend/scraper/bdjobs/__init__.py,
lines 227-367) over the card abstraction: no link yields `none`; otherwise
the job URL is resolved, the id derived from it, title and company fall
back to "N/A", the location falls back to "Dhaka, Bangladesh", and the
constructed post hard-codes `is_remote := false` (line 359). -/
def processJob (base country : String) (card : Card) : Option JobPost :=
  match card.detailLink.orElse (fun _ => card.anyLink) with
  | none => none
  | some href =>
    let job_url := if startsWithStr href "http" then href else urljoin base href
    let job_id := extract_job_id_from_url job_url
    let t0 := if card.linkText ≠ "" then card.linkText else card.headingText.getD ""
    let title := if t0 = "" then "N/A" else t0
    let c0 := card.companyClassText.getD "N/A"
    let company := if c0 = "N/A" then trimStr (card.companyPatternText.getD "N/A") else c0
    let l0 := card.locationClassText.getD "Dhaka, Bangladesh"
    let location_text :=
      if l0 = "Dhaka, Bangladesh" then trimStr (card.locationPatternText.getD "Dhaka, Bangladesh")
      else l0
    some
      { id := job_id
        title := title
        company_name := company
        location := parse_location location_text country
        job_url := job_url
        description := card.descText
        job_type := card.typeText
        date_posted := card.dateText
        is_remote := false
        site := "bdjobs" }

/-- Embeds `ScraperInput` as consumed by `BDJobs.scrape`: search term,
location (empty string models a missing/falsy location) and the number of
results wanted. -/
structure ScraperInput where
  search_term : String
  location : String
  results_wanted : Nat
deriving Repr, DecidableEq

/-- Outcome of one search-page fetch, abstracting the HTTP layer: a raised
transport error, or a response with its status code and the job cards that
`find_job_listings` extracts from its body. -/
inductive FetchOutcome where
  | transportError : FetchOutcome
  | response : Nat → List Card → FetchOutcome
deriving Repr, DecidableEq

/-- Result of a crawler run: the accumulated posts and the number of
search-page fetches that were issued. -/
structure ScrapeResult where
  jobs : List JobPost
  fetches : Nat
deriving Repr, DecidableEq

/-- Embeds the inner for-loop over `job_cards` in `BDJobs.scrape` (lines
205-215): process each card, skip failed parses and ids already seen,
append fresh posts, and break as soon as `results_wanted` is reached. -/
def addCards (base country : String) (wanted : Nat) :
    List Card → List String → List JobPost → List String × List JobPost
  | [], seen, acc => (seen, acc)
  | card :: rest, seen, acc =>
    match processJob base country card with
    | none => addCards base country wanted rest seen acc
    | some jp =>
      if jp.id ∈ seen then addCards base country wanted rest seen acc
      else if acc.length + 1 < wanted then
        addCards base country wanted rest (jp.id :: seen) (acc ++ [jp])
      else (jp.id :: seen, acc ++ [jp])

/-- Embeds the `while continue_search() and page <= 5` pagination loop of
`BDJobs.scrape` (lines 177-222), with `fuel` as the structural bound (the
loop body runs at most 5 times since `page` starts at 1). A transport
error, a non-200 status, or an empty card list stops the loop, returning
the accumulated posts; each loop iteration issues exactly one fetch. -/
def scrapePages (base country : String) (wanted : Nat) (env : Nat → FetchOutcome) :
    Nat → Nat → List String → List JobPost → ScrapeResult
  | 0, _, _, acc => { jobs := acc, fetches := 0 }
  | Nat.succ fuel, page, seen, acc =>
    if acc.length < wanted ∧ page ≤ 5 then
      match env page with
      | FetchOutcome.transportError => { jobs := acc, fetches := 1 }
      | FetchOutcome.response status cards =>
        if status ≠ 200 then { jobs := acc, fetches := 1 }
        else if cards.isEmpty then { jobs := acc, fetches := 1 }
        else
          let sa := addCards base country wanted cards seen acc
          let r := scrapePages base country wanted env fuel (page + 1) sa.1 sa.2
          { jobs := r.jobs, fetches := r.fetches + 1 }
    else { jobs := acc, fetches := 0 }

/-- Embeds `BDJobs.scrape` (src/backend/scraper/bdjobs/__init__.py, lines
156-225): a non-empty location outside Bangladesh short-circuits to an
empty response with no fetch; otherwise the pagination loop runs from page
1 with empty accumulator and empty seen-id set. -/
def BDJobs.scrape (input : ScraperInput) (env : Nat → FetchOutcome) : ScrapeResult :=
  if input.location ≠ "" ∧ is_bangladesh_location input.location = false then
    { jobs := [], fetches := 0 }
  else
    scrapePages "https://jobs.bdjobs.com" "bangladesh" input.results_wanted env 5 1 [] []

/-- One row of the scraped-jobs DataFrame as consumed by the remote filter
in `JobService.scrape_jobs_wrapper` (src/backend/modules/services.py): only
the `job_url` and `is_remote` columns are read there; `is_remote` is an
`Option Bool` so that a missing/NaN cell (for which both `== True` tests
are false) is representable. -/
structure Row where
  job_url : String
  is_remote : Option Bool
deriving Repr, DecidableEq

/-- Embeds the pandas row filters `jobs_df[jobs_df['is_remote'] == True]`
and `jobs_df[jobs_df['is_remote'] != True]` of services.py lines 91-96. -/
def remoteMatch (want : Bool) (r : Row) : Bool :=
  if want then r.is_remote == some true else !(r.is_remote == some true)

/-- Row filter by remote preference (services.py lines 91-96, 122-126). -/
def filterRemote (want : Bool) (rows : List Row) : List Row :=
  rows.filter (remoteMatch want)

/-- Embeds `initial_results_wanted` (services.py lines 67-70): with a remote
filter the initial request is `min(results_wanted * 3, 200)`, otherwise
`results_wanted` unchanged. -/
def initialWanted (results_wanted : Nat) (is_remote : Option Bool) : Nat :=
  match is_remote with
  | some _ => min (results_wanted * 3) 200
  | none => results_wanted

/-- Result of one run of the wrapper: the rows it ends with and the list of
requested sizes of the `scrape_jobs` fetch rounds it issued (in order). -/
structure WrapperRun where
  rows : List Row
  rounds : List Nat
deriving Repr, DecidableEq

/-- Embeds `JobService.scrape_jobs_wrapper` (services.py lines 66-137) up to
but excluding the final truncation: the initial fetch, the remote filter,
the single bounded supplementary fetch with its own filtering and
`job_url` dedup, and the merge. `fetch round size` abstracts the
`scrape_jobs` call of the given round with `results_wanted = size`. -/
def mergedRows (results_wanted : Nat) (is_remote : Option Bool)
    (fetch : Nat → Nat → List Row) : WrapperRun :=
  let initial := initialWanted results_wanted is_remote
  let jobs := fetch 1 initial
  match is_remote with
  | none => { rows := jobs, rounds := [initial] }
  | some want =>
    if jobs.isEmpty then { rows := jobs, rounds := [initial] }
    else
      let filtered := filterRemote want jobs
      if filtered.length < results_wanted ∧ initial < 200 then
        let needed := results_wanted - filtered.length
        let addReq := min (needed * 2) (200 - initial)
        if addReq > 0 then
          let additional := fetch 2 addReq
          if additional.isEmpty then { rows := filtered, rounds := [initial, addReq] }
          else
            let addFiltered := filterRemote want additional
            let urls := filtered.map Row.job_url
            let deduped := addFiltered.filter (fun r => !(urls.contains r.job_url))
            { rows := filtered ++ deduped, rounds := [initial, addReq] }
        else { rows := filtered, rounds := [initial] }
      else { rows := filtered, rounds := [initial] }

/-- Embeds `JobService.scrape_jobs_wrapper` including its final truncation
(services.py lines 139-142): when more rows than `results_wanted` remain,
keep only the head `results_wanted` of them. -/
def scrape_jobs_wrapper (results_wanted : Nat) (is_remote : Option Bool)
    (fetch : Nat → Nat → List Row) : WrapperRun :=
  let m := mergedRows results_wanted is_remote fetch
  { rows := if m.rows.length > results_wanted then m.rows.take results_wanted else m.rows
    rounds := m.rounds }

/-- Scalar cell value of a DataFrame row as handled by `safe_get` inside
`process_jobs_dataframe` (src/modules/utils.py lines 275-287): Python
`None`, a NaN cell, a string, a boolean, a number, or a date/datetime
object. A date carries both its `isoformat()` rendering and its `str()`
rendering, which is all `safe_get` ever reads from it. -/
inductive PyVal where
  | none : PyVal
  | nan : PyVal
  | str : String → PyVal
  | boolean : Bool → PyVal
  | num : Int → PyVal
  | date : String → String → PyVal
deriving Repr, DecidableEq

/-- Python `str()` rendering of a non-null scalar value. -/
def pyStr : PyVal → String
  | PyVal.none => "None"
  | PyVal.nan => "nan"
  | PyVal.str s => s
  | PyVal.boolean true => "True"
  | PyVal.boolean false => "False"
  | PyVal.num n => toString n
  | PyVal.date _ p => p

/-- Embeds the helper `safe_get` of `process_jobs_dataframe`
(src/modules/utils.py lines 275-287): null/NaN cells become the default,
date objects become strings (isoformat when converting, `str()` otherwise),
and any other value is returned as-is or string-coerced on request. -/
def safe_get (v : PyVal) (default : PyVal) (convert_to_string : Bool) : PyVal :=
  match v with
  | PyVal.none => default
  | PyVal.nan => default
  | PyVal.date iso p => PyVal.str (if convert_to_string then iso else p)
  | w => if convert_to_string then PyVal.str (pyStr w) else w

/-- One DataFrame row as read by `process_jobs_dataframe`: the columns it
accesses by name (note the scraped column is named `company`, while the
output model field is `company_name`). -/
structure JobRow where
  id : PyVal
  title : PyVal
  company : PyVal
  job_url : PyVal
  location : PyVal
  description : PyVal
  company_url : PyVal
  job_type : PyVal
  date_posted : PyVal
  is_remote : PyVal
  site : PyVal
  min_amount : PyVal
  max_amount : PyVal
  currency : PyVal
  interval : PyVal
deriving Repr, DecidableEq

/-- Canonical posting produced by `process_jobs_dataframe`: the field values
passed to the `JobPost` pydantic constructor (src/modules/utils.py lines
289-305), with the field names of the output model. -/
structure NormalizedPost where
  id : PyVal
  title : PyVal
  company_name : PyVal
  job_url : PyVal
  location : PyVal
  description : PyVal
  company_url : PyVal
  job_type : PyVal
  date_posted : PyVal
  is_remote : PyVal
  site : PyVal
  min_amount : PyVal
  max_amount : PyVal
  currency : PyVal
  interval : PyVal
deriving Repr, DecidableEq

/-- Embeds the per-row body of `process_jobs_dataframe` (src/modules/utils.py
lines 289-305): each field is `safe_get` of the corresponding column with
its typed default; only `date_posted` requests string conversion. -/
def processJobRow (r : JobRow) : NormalizedPost :=
  { id := safe_get r.id PyVal.none false
    title := safe_get r.title (PyVal.str "N/A") false
    company_name := safe_get r.company (PyVal.str "N/A") false
    job_url := safe_get r.job_url (PyVal.str "") false
    location := safe_get r.location PyVal.none false
    description := safe_get r.description PyVal.none false
    company_url := safe_get r.company_url PyVal.none false
    job_type := safe_get r.job_type PyVal.none false
    date_posted := safe_get r.date_posted PyVal.none true
    is_remote := safe_get r.is_remote (PyVal.boolean false) false
    site := safe_get r.site (PyVal.str "unknown") false
    min_amount := safe_get r.min_amount PyVal.none false
    max_amount := safe_get r.max_amount PyVal.none false
    currency := safe_get r.currency PyVal.none false
    interval := safe_get r.interval PyVal.none false }

/-- Embeds `process_jobs_dataframe` (src/modules/utils.py lines 268-313)
over a list of rows: normalize each row in order. -/
def process_jobs_dataframe (rows : List JobRow) : List NormalizedPost :=
  rows.map processJobRow

/-- Present a normalized posting back to the normalizer as a DataFrame row:
each output field is placed under the column name the normalizer reads for
it (in particular `company_name` under the scraped column `company`). -/
def rowOfPost (p : NormalizedPost) : JobRow :=
  { id := p.id
    title := p.title
    company := p.company_name
    job_url := p.job_url
    location := p.location
    description := p.description
    company_url := p.company_url
    job_type := p.job_type
    date_posted := p.date_posted
    is_remote := p.is_remote
    site := p.site
    min_amount := p.min_amount
    max_amount := p.max_amount
    currency := p.currency
    interval := p.interval }

/-- Projection of a crawler post to the DataFrame row the services-layer
remote filter reads: the `is_remote` column carries the post's flag. -/
def rowOfJobPost (jp : JobPost) : Row :=
  { job_url := jp.job_url, is_remote := some jp.is_remote }

lemma addCards_snd_length_le (base country : String) (wanted : Nat) :
    ∀ (cards : List Card) (seen : List String) (acc : List JobPost),
      acc.length < wanted →
      ((addCards base country wanted cards seen acc).2).length ≤ wanted := by
  intro cards
  induction cards with
  | nil =>
    intro seen acc h
    simpa [addCards] using Nat.le_of_lt h
  | cons card rest ih =>
    intro seen acc h
    simp only [addCards]
    cases hp : processJob base country card with
    | none => exact ih seen acc h
    | some jp =>
      by_cases hm : jp.id ∈ seen
      · simp only [if_pos hm]
        exact ih seen acc h
      · simp only [if_neg hm]
        by_cases hlen : acc.length + 1 < wanted
        · simp only [if_pos hlen]
          exact ih _ _ (by simpa using hlen)
        · simp only [if_neg hlen]
          simpa using h

lemma scrapePages_jobs_length_le (base country : String) (wanted : Nat)
    (env : Nat → FetchOutcome) :
    ∀ (fuel page : Nat) (seen : List String) (acc : List JobPost),
      acc.length ≤ wanted →
      ((scrapePages base country wanted env fuel page seen acc).jobs).length ≤ wanted := by
  intro fuel
  induction fuel with
  | zero =>
    intro page seen acc h
    simpa [scrapePages] using h
  | succ fuel ih =>
    intro page seen acc h
    simp only [scrapePages]
    by_cases hc : acc.length < wanted ∧ page ≤ 5
    · simp only [if_pos hc]
      cases henv : env page with
      | transportError => simpa using h
      | response status cards =>
        by_cases hs : status ≠ 200
        · simp only [if_pos hs]
          simpa using h
        · simp only [if_neg hs]
          by_cases he : cards.isEmpty
          · simp only [if_pos he]
            simpa using h
          · simp only [if_neg he]
            exact ih _ _ _ (addCards_snd_length_le _ _ _ _ _ _ hc.1)
    · simp only [if_neg hc]
      simpa using h

lemma scrapePages_fetches_le (base country : String) (wanted : Nat)
    (env : Nat → FetchOutcome) :
    ∀ (fuel page : Nat) (seen : List String) (acc : List JobPost),
      (scrapePages base country wanted env fuel page seen acc).fetches ≤ fuel := by
  intro fuel
  induction fuel with
  | zero =>
    intro page seen acc
    simp [scrapePages]
  | succ fuel ih =>
    intro page seen acc
    simp only [scrapePages]
    by_cases hc : acc.length < wanted ∧ page ≤ 5
    · simp only [if_pos hc]
      cases henv : env page with
      | transportError => simp
      | response status cards =>
        by_cases hs : status ≠ 200
        · simp [if_pos hs]
        · simp only [if_neg hs]
          by_cases he : cards.isEmpty
          · rw [if_pos he]
            simp
          · simp only [if_neg he]
            exact Nat.succ_le_succ (ih _ _ _)
    · simp [if_neg hc]

lemma addCards_nodup_invariant (base country : String) (wanted : Nat) :
    ∀ (cards : List Card) (seen : List String) (acc : List JobPost),
      (acc.map JobPost.id).Nodup → (∀ j ∈ acc, j.id ∈ seen) →
      (((addCards base country wanted cards seen acc).2).map JobPost.id).Nodup ∧
      (∀ j ∈ (addCards base country wanted cards seen acc).2,
        j.id ∈ (addCards base country wanted cards seen acc).1) := by
  intro cards
  induction cards with
  | nil =>
    intro seen acc hnd hsub
    simpa [addCards] using ⟨hnd, hsub⟩
  | cons card rest ih =>
    intro seen acc hnd hsub
    simp only [addCards]
    cases hp : processJob base country card with
    | none => exact ih seen acc hnd hsub
    | some jp =>
      by_cases hm : jp.id ∈ seen
      · simp only [if_pos hm]
        exact ih seen acc hnd hsub
      · simp only [if_neg hm]
        have hnd2 : ((acc ++ [jp]).map JobPost.id).Nodup := by
          rw [List.map_append, List.nodup_append]
          refine ⟨hnd, List.nodup_singleton _, ?_⟩
          intro x hx hx2
          simp only [List.map_cons, List.map_nil, List.mem_singleton] at hx2
          subst hx2
          obtain ⟨j, hj, hjid⟩ := List.mem_map.mp hx
          exact hm (hjid ▸ hsub j hj)
        have hsub2 : ∀ j ∈ acc ++ [jp], j.id ∈ jp.id :: seen := by
          intro j hj
          rcases List.mem_append.mp hj with hj1 | hj2
          · exact List.mem_cons_of_mem _ (hsub j hj1)
          · simp only [List.mem_singleton] at hj2
            subst hj2
            exact List.mem_cons_self _ _
        by_cases hlen : acc.length + 1 < wanted
        · simp only [if_pos hlen]
          exact ih _ _ hnd2 hsub2
        · simp only [if_neg hlen]
          exact ⟨hnd2, hsub2⟩

lemma scrapePages_nodup_invariant (base country : String) (wanted : Nat)
    (env : Nat → FetchOutcome) :
    ∀ (fuel page : Nat) (seen : List String) (acc : List JobPost),
      (acc.map JobPost.id).Nodup → (∀ j ∈ acc, j.id ∈ seen) →
      (((scrapePages base country wanted env fuel page seen acc).jobs).map JobPost.id).Nodup := by
  intro fuel
  induction fuel with
  | zero =>
    intro page seen acc hnd hsub
    simpa [scrapePages] using hnd
  | succ fuel ih =>
    intro page seen acc hnd hsub
    simp only [scrapePages]
    by_cases hc : acc.length < wanted ∧ page ≤ 5
    · simp only [if_pos hc]
      cases henv : env page with
      | transportError => simpa using hnd
      | response status cards =>
        by_cases hs : status ≠ 200
        · simp only [if_pos hs]
          simpa using hnd
        · simp only [if_neg hs]
          by_cases he : cards.isEmpty
          · rw [if_pos he]
            simpa using hnd
          · simp only [if_neg he]
            have h2 := addCards_nodup_invariant base country wanted cards seen acc hnd hsub
            exact ih _ _ _ h2.1 h2.2
    · simp only [if_neg hc]
      simpa using hnd

lemma processJob_is_remote_false (base country : String) (card : Card) (jp : JobPost)
    (h : processJob base country card = some jp) : jp.is_remote = false := by
  simp only [processJob] at h
  split at h
  · exact absurd h (by simp)
  · rw [Option.some.injEq] at h
    subst h
    rfl

lemma addCards_remote_invariant (base country : String) (wanted : Nat) :
    ∀ (cards : List Card) (seen : List String) (acc : List JobPost),
      (∀ j ∈ acc, j.is_remote = false) →
      ∀ j ∈ (addCards base country wanted cards seen acc).2, j.is_remote = false := by
  intro cards
  induction cards with
  | nil =>
    intro seen acc hacc
    simpa [addCards] using hacc
  | cons card rest ih =>
    intro seen acc hacc
    simp only [addCards]
    cases hp : processJob base country card with
    | none => exact ih seen acc hacc
    | some jp =>
      have hjp : jp.is_remote = false := processJob_is_remote_false base country card jp hp
      have hacc2 : ∀ j ∈ acc ++ [jp], j.is_remote = false := by
        intro j hj
        rcases List.mem_append.mp hj with hj1 | hj2
        · exact hacc j hj1
        · simp only [List.mem_singleton] at hj2
          subst hj2
          exact hjp
      by_cases hm : jp.id ∈ seen
      · simp only [if_pos hm]
        exact ih seen acc hacc
      · simp only [if_neg hm]
        by_cases hlen : acc.length + 1 < wanted
        · simp only [if_pos hlen]
          exact ih _ _ hacc2
        · simp only [if_neg hlen]
          exact hacc2

lemma scrapePages_remote_invariant (base country : String) (wanted : Nat)
    (env : Nat → FetchOutcome) :
    ∀ (fuel page : Nat) (seen : List String) (acc : List JobPost),
      (∀ j ∈ acc, j.is_remote = false) →
      ∀ j ∈ (scrapePages base country wanted env fuel page seen acc).jobs,
        j.is_remote = false := by
  intro fuel
  induction fuel with
  | zero =>
    intro page seen acc hacc
    simpa [scrapePages] using hacc
  | succ fuel ih =>
    intro page seen acc hacc
    simp only [scrapePages]
    by_cases hc : acc.length < wanted ∧ page ≤ 5
    · simp only [if_pos hc]
      cases henv : env page with
      | transportError => simpa using hacc
      | response status cards =>
        by_cases hs : status ≠ 200
        · simp only [if_pos hs]
          simpa using hacc
        · simp only [if_neg hs]
          by_cases he : cards.isEmpty
          · rw [if_pos he]
            simpa using hacc
          · simp only [if_neg he]
            exact ih _ _ _ (addCards_remote_invariant base country wanted cards seen acc hacc)
    · simp only [if_neg hc]
      simpa using hacc

/-- Sample job card used by witnesses: a card with a detail link carrying an
`id` query parameter. -/
def cardSample : Card :=
  { detailLink := some "https://jobs.bdjobs.com/jobdetail.asp?id=101"
    anyLink := none
    linkText := "Software Engineer"
    headingText := none
    companyClassText := some "Acme Ltd"
    companyPatternText := none
    locationClassText := some "Dhaka, Bangladesh"
    locationPatternText := none
    descText := none
    typeText := none
    dateText := none }

/-- Sample environment: every page responds with status 200 and one card. -/
def envSample : Nat → FetchOutcome :=
  fun _ => FetchOutcome.response 200 [cardSample]

/-- Sample environment in which every fetch raises a transport error. -/
def envError : Nat → FetchOutcome :=
  fun _ => FetchOutcome.transportError

/-- Sample already-accumulated post used by the transport-failure witness. -/
def jpSample : JobPost :=
  { id := "bdjobs-101"
    title := "Software Engineer"
    company_name := "Acme Ltd"
    location := { city := some "Dhaka", state := some "Bangladesh", country := "bangladesh" }
    job_url := "https://jobs.bdjobs.com/jobdetail.asp?id=101"
    description := none
    job_type := none
    date_posted := none
    is_remote := false
    site := "bdjobs" }

/-- C1: for every search request, the number of postings finally returned
never exceeds `results_wanted` — the crawler's accumulation loop stops
adding postings as soon as `results_wanted` are collected, and the caller
additionally truncates any surplus, so the length of the result is at most
`results_wanted` for every crawler run and every wrapper run. -/
theorem result_count_le_results_wanted (input : ScraperInput) (env : Nat → FetchOutcome)
    (rwanted : Nat) (ir : Option Bool) (fetch : Nat → Nat → List Row) :
    (BDJobs.scrape input env).jobs.length ≤ input.results_wanted ∧
    (scrape_jobs_wrapper rwanted ir fetch).rows.length ≤ rwanted := by
  constructor
  · unfold BDJobs.scrape
    by_cases hc : input.location ≠ "" ∧ is_bangladesh_location input.location = false
    · simp [if_pos hc]
    · simp only [if_neg hc]
      exact scrapePages_jobs_length_le _ _ _ _ _ _ _ _ (Nat.zero_le _)
  · unfold scrape_jobs_wrapper
    by_cases hl : (mergedRows rwanted ir fetch).rows.length > rwanted
    · simp [if_pos hl]
    · simp only [if_neg hl]
      omega

/-- C2: for every crawler run, no two postings in the returned list share
the same derived id — every candidate whose id is already in the run's
seen-id set is skipped, so the ids of the returned list are pairwise
distinct. -/
theorem scrape_ids_nodup (input : ScraperInput) (env : Nat → FetchOutcome) :
    (((BDJobs.scrape input env).jobs).map JobPost.id).Nodup := by
  unfold BDJobs.scrape
  by_cases hc : input.location ≠ "" ∧ is_bangladesh_location input.location = false
  · simp [if_pos hc]
  · simp only [if_neg hc]
    exact scrapePages_nodup_invariant _ _ _ _ _ _ _ _ (by simp) (by simp)

/-- C3: for every scraper input, a single crawler run issues at most
`MAX_PAGES = 5` search-page fetches, regardless of how large
`results_wanted` is — the pagination loop condition bounds the page index
by the fixed constant 5. -/
theorem scrape_fetches_le_max_pages (input : ScraperInput) (env : Nat → FetchOutcome) :
    (BDJobs.scrape input env).fetches ≤ 5 := by
  unfold BDJobs.scrape
  by_cases hc : input.location ≠ "" ∧ is_bangladesh_location input.location = false
  · simp [if_pos hc]
  · simp only [if_neg hc]
    exact scrapePages_fetches_le _ _ _ _ _ _ _ _

/-- C4: for every non-empty location string containing no Bangladesh
indicator keyword, the region-restricted crawler's scrape returns an empty
job list and performs zero HTTP fetches. -/
theorem scrape_inapplicable_location_empty (input : ScraperInput) (env : Nat → FetchOutcome)
    (h1 : input.location ≠ "") (h2 : is_bangladesh_location input.location = false) :
    BDJobs.scrape input env = { jobs := [], fetches := 0 } := by
  unfold BDJobs.scrape
  rw [if_pos ⟨h1, h2⟩]

/-- Witness for C4 at the concrete location "Paris" with an environment that
would otherwise serve job cards: the crawler still returns no jobs and
issues zero fetches. -/
theorem scrape_inapplicable_location_empty_witness :
    BDJobs.scrape { search_term := "engineer", location := "Paris", results_wanted := 10 }
      envSample = { jobs := [], fetches := 0 } :=
  scrape_inapplicable_location_empty _ envSample (by decide) (by decide)

/-- C7: for every page fetch that returns a non-200 status or raises a
transport error, the crawler stops paginating and returns the list of
postings accumulated so far, unchanged, without raising to the caller
(issuing only the one failing fetch from that point on). -/
theorem scrape_transport_failure_preserves_accumulated
    (base country : String) (wanted fuel page : Nat) (env : Nat → FetchOutcome)
    (seen : List String) (acc : List JobPost)
    (hcond : acc.length < wanted ∧ page ≤ 5)
    (hfail : env page = FetchOutcome.transportError ∨
      ∃ status cards, env page = FetchOutcome.response status cards ∧ status ≠ 200) :
    scrapePages base country wanted env (fuel + 1) page seen acc
      = { jobs := acc, fetches := 1 } := by
  simp only [scrapePages, if_pos hcond]
  rcases hfail with herr | ⟨status, cards, henv, hs⟩
  · rw [herr]
  · rw [henv]
    simp only [if_pos hs]

/-- Witness for C7: with one posting already accumulated and a transport
error on page 2, the run returns exactly that posting and stops. -/
theorem scrape_transport_failure_preserves_accumulated_witness :
    scrapePages "https://jobs.bdjobs.com" "bangladesh" 5 envError 4 2
      ["bdjobs-101"] [jpSample] = { jobs := [jpSample], fetches := 1 } :=
  scrape_transport_failure_preserves_accumulated "https://jobs.bdjobs.com" "bangladesh"
    5 3 2 envError ["bdjobs-101"] [jpSample] (by constructor <;> simp) (Or.inl rfl)

/-- C10: every post produced by the BDJobs crawler has `is_remote = false`
(the crawler hard-codes the flag), so the services-layer remote-only filter
removes every BDJobs posting from the result. -/
theorem bdjobs_posts_never_remote (input : ScraperInput) (env : Nat → FetchOutcome) :
    (BDJobs.scrape input env).jobs.all (fun jp => jp.is_remote == false) = true ∧
    filterRemote true (((BDJobs.scrape input env).jobs).map rowOfJobPost) = [] := by
  have hall : ∀ j ∈ (BDJobs.scrape input env).jobs, j.is_remote = false := by
    unfold BDJobs.scrape
    by_cases hc : input.location ≠ "" ∧ is_bangladesh_location input.location = false
    · simp [if_pos hc]
    · simp only [if_neg hc]
      exact scrapePages_remote_invariant _ _ _ _ _ _ _ _ (by simp)
  constructor
  · rw [List.all_eq_true]
    intro jp hjp
    simp [hall jp hjp]
  · unfold filterRemote
    rw [List.filter_eq_nil_iff]
    intro r hr
    obtain ⟨jp, hjp, hrow⟩ := List.mem_map.mp hr
    subst hrow
    simp [remoteMatch, rowOfJobPost, hall jp hjp]

lemma mergedRows_rounds_shape (rwanted : Nat) (want : Bool) (fetch : Nat → Nat → List Row) :
    (mergedRows rwanted (some want) fetch).rounds = [initialWanted rwanted (some want)] ∨
    (initialWanted rwanted (some want) < 200 ∧
      ∃ a, a ≤ 200 - initialWanted rwanted (some want) ∧
        (mergedRows rwanted (some want) fetch).rounds =
          [initialWanted rwanted (some want), a]) := by
  simp only [mergedRows]
  by_cases h1 : (fetch 1 (initialWanted rwanted (some want))).isEmpty
  · rw [if_pos h1]
    left
    rfl
  · rw [if_neg h1]
    by_cases h2 : (filterRemote want (fetch 1 (initialWanted rwanted (some want)))).length
        < rwanted ∧ initialWanted rwanted (some want) < 200
    · rw [if_pos h2]
      by_cases h3 : min ((rwanted -
          (filterRemote want (fetch 1 (initialWanted rwanted (some want)))).length) * 2)
          (200 - initialWanted rwanted (some want)) > 0
      · rw [if_pos h3]
        right
        refine ⟨h2.2, min ((rwanted -
            (filterRemote want (fetch 1 (initialWanted rwanted (some want)))).length) * 2)
            (200 - initialWanted rwanted (some want)), Nat.min_le_right _ _, ?_⟩
        by_cases h4 : (fetch 2 (min ((rwanted -
            (filterRemote want (fetch 1 (initialWanted rwanted (some want)))).length) * 2)
            (200 - initialWanted rwanted (some want)))).isEmpty
        · rw [if_pos h4]
        · rw [if_neg h4]
      · rw [if_neg h3]
        left
        rfl
    · rw [if_neg h2]
      left
      rfl

/-- C5: for every request with the remote filter set, the backfill loop
performs at most 2 fetch rounds, the combined requested size across rounds
never exceeds 200, and the first round requests `min(results_wanted * 3,
200)` (the supplementary round is bounded by 200 minus that size). -/
theorem backfill_rounds_bound (rwanted : Nat) (want : Bool) (fetch : Nat → Nat → List Row) :
    (scrape_jobs_wrapper rwanted (some want) fetch).rounds.length ≤ 2 ∧
    (scrape_jobs_wrapper rwanted (some want) fetch).rounds.sum ≤ 200 ∧
    (scrape_jobs_wrapper rwanted (some want) fetch).rounds.head? =
      some (min (rwanted * 3) 200) := by
  have hround : (scrape_jobs_wrapper rwanted (some want) fetch).rounds
      = (mergedRows rwanted (some want) fetch).rounds := rfl
  have hI200 : initialWanted rwanted (some want) ≤ 200 := Nat.min_le_right _ _
  have hIdef : initialWanted rwanted (some want) = min (rwanted * 3) 200 := rfl
  rcases mergedRows_rounds_shape rwanted want fetch with hsh | ⟨hlt, a, ha, hsh⟩
  · rw [hround, hsh]
    refine ⟨by simp, by simpa using hI200, by rw [hIdef]; rfl⟩
  · rw [hround, hsh]
    refine ⟨by simp, ?_, by rw [hIdef]; rfl⟩
    simp only [List.sum_cons, List.sum_nil]
    omega

/-- C6: for every remote-filtered search, the final output of the backfill
loop is the head truncation (first `results_wanted` entries) of the merged
rows, preserving their order; its length is therefore exactly
`results_wanted` whenever at least that many merged rows exist, and the
full merged list otherwise. -/
theorem backfill_head_truncation (rwanted : Nat) (want : Bool)
    (fetch : Nat → Nat → List Row) :
    (scrape_jobs_wrapper rwanted (some want) fetch).rows =
      ((mergedRows rwanted (some want) fetch).rows).take rwanted ∧
    (scrape_jobs_wrapper rwanted (some want) fetch).rows.length =
      min rwanted ((mergedRows rwanted (some want) fetch).rows).length := by
  have hmain : (scrape_jobs_wrapper rwanted (some want) fetch).rows =
      ((mergedRows rwanted (some want) fetch).rows).take rwanted := by
    show (if (mergedRows rwanted (some want) fetch).rows.length > rwanted
        then ((mergedRows rwanted (some want) fetch).rows).take rwanted
        else (mergedRows rwanted (some want) fetch).rows) = _
    by_cases hl : (mergedRows rwanted (some want) fetch).rows.length > rwanted
    · rw [if_pos hl]
    · rw [if_neg hl]
      exact (List.take_of_length_le (by omega)).symm
  refine ⟨hmain, ?_⟩
  rw [hmain, List.length_take]

lemma safe_get_idem (v d : PyVal) (c : Bool) (hd : safe_get d d c = d) :
    safe_get (safe_get v d c) d c = safe_get v d c := by
  cases v with
  | none =>
    simp only [safe_get]
    exact hd
  | nan =>
    simp only [safe_get]
    exact hd
  | date iso p => cases c <;> simp [safe_get, pyStr]
  | str s => cases c <;> simp [safe_get, pyStr]
  | boolean b => cases b <;> cases c <;> simp [safe_get, pyStr]
  | num n => cases c <;> simp [safe_get, pyStr]

lemma processJobRow_idem (r : JobRow) :
    processJobRow (rowOfPost (processJobRow r)) = processJobRow r := by
  simp only [processJobRow, rowOfPost, NormalizedPost.mk.injEq]
  exact ⟨safe_get_idem _ _ _ rfl, safe_get_idem _ _ _ rfl, safe_get_idem _ _ _ rfl,
    safe_get_idem _ _ _ rfl, safe_get_idem _ _ _ rfl, safe_get_idem _ _ _ rfl,
    safe_get_idem _ _ _ rfl, safe_get_idem _ _ _ rfl, safe_get_idem _ _ _ rfl,
    safe_get_idem _ _ _ rfl, safe_get_idem _ _ _ rfl, safe_get_idem _ _ _ rfl,
    safe_get_idem _ _ _ rfl, safe_get_idem _ _ _ rfl, safe_get_idem _ _ _ rfl⟩

/-- C9: normalization is idempotent — feeding the normalizer's own output
back to it (each posting presented as a row under the column names the
normalizer reads) reproduces the same canonical field values; the
substituted defaults ("N/A", `None`, `False`) are fixed points of a second
normalization pass. -/
theorem normalization_idempotent (rows : List JobRow) :
    process_jobs_dataframe ((process_jobs_dataframe rows).map rowOfPost) =
      process_jobs_dataframe rows := by
  induction rows with
  | nil => rfl
  | cons r rest ih =>
    simp only [process_jobs_dataframe, List.map_cons] at ih ⊢
    rw [processJobRow_idem r, ih]

/-- C8 counterexample: the whitespace-only location " " is non-empty, so it
is NOT treated as unspecified — the classifier finds no indicator in it and
returns `false`, and the crawler short-circuits to an empty result with
zero fetches even though the environment would have served job cards. -/
theorem whitespace_location_short_circuits :
    is_bangladesh_location " " = false ∧
    BDJobs.scrape { search_term := "engineer", location := " ", results_wanted := 10 }
      envSample = { jobs := [], fetches := 0 } := by
  constructor
  · decide
  · unfold BDJobs.scrape
    rw [if_pos ⟨by decide, by decide⟩]

/-- C8 (amended): only the genuinely empty location string is treated as
unspecified — the classifier marks it applicable and the crawler proceeds
to the pagination loop rather than short-circuiting; a whitespace-only
(non-empty) location instead fails the classifier and short-circuits. -/
theorem empty_location_applicable (input : ScraperInput) (env : Nat → FetchOutcome)
    (h : input.location = "") :
    is_bangladesh_location input.location = true ∧
    BDJobs.scrape input env =
      scrapePages "https://jobs.bdjobs.com" "bangladesh" input.results_wanted env 5 1 [] [] := by
  constructor
  · rw [h]
    rfl
  · unfold BDJobs.scrape
    rw [if_neg]
    intro hc
    exact hc.1 h

/-- Witness for the amended C8: with the empty location the crawler run is
exactly the pagination loop from page 1. -/
theorem empty_location_applicable_witness :
    is_bangladesh_location "" = true ∧
    BDJobs.scrape { search_term := "data", location := "", results_wanted := 3 } envSample =
      scrapePages "https://jobs.bdjobs.com" "bangladesh" 3 envSample 5 1 [] [] :=
  empty_location_applicable
    { search_term := "data", location := "", results_wanted := 3 } envSample rfl
